import Mathlib

/-!
# Bravix financial-indicator engine: a shallow embedding

This file embeds `backend/app/utils/financial_indicators.py` (the
18-indicator financial health engine) in Lean 4 and proves properties of
the embedding.

Modelling conventions:

* Python floats are modelled as rationals (`ℚ`).  Every number occurring
  in the engine (inputs, thresholds, the constants 0.3, 0.45, 1.15, the
  rounding grids 10^2 and 10^4) is decimal, so the rational model is the
  real-number reading of the source; IEEE-754 rounding noise is out of
  scope.  Python's `round(x, n)` rounds half to even, mirrored exactly by
  `pyRound`/`roundTo` below.
* Raw input values (the values of the dict handed to `compute_all`) are
  modelled by `Value`: `Value.num q` covers a float as well as a numeric
  string (after `safe_num` both behave as the number `q`, and nothing in
  the engine reads a raw value except through
  `normalize_scale`/`safe_num`); `Value.garbage` covers everything
  `safe_num` coerces to `0.0` — `None`, `""`, `"NaN"`, `"null"`,
  unparsable strings, booleans — via the guard list and the
  `except: return 0.0` branch.
* A Python dict is an insertion-ordered association list with unique
  keys; `dget`/`dset` mirror `dict.get`/`d[k] = v` (update in place,
  append if new).  `compute_all` mutates its argument dict, so the
  embedding returns the final state of that dict alongside the report.
* The statuses are an enumeration `Status`; the source's status strings
  are `"good"`, `"caution"`, `"poor"`, `"insufficient data"`,
  `"unknown"`.
-/

/-- A raw value of the input dict: a number (or numeric string), or
garbage that `safe_num` coerces to `0.0` (None, `""`, `"NaN"`,
`"null"`, unparsable strings). -/
inductive Value where
  | num (q : ℚ)
  | garbage
deriving DecidableEq, Repr

/-- `safe_num` from the source: convert any value safely to float.
Numbers (and numeric strings) parse to themselves; everything else
returns `0.0` (guard list or the `except` branch). -/
def safe_num : Value → ℚ
  | .num q => q
  | .garbage => 0

/-- Python's `round`-to-integer: round half to even. -/
def pyRound (q : ℚ) : ℤ :=
  let f := ⌊q⌋
  let r := q - f
  if r < 1/2 then f
  else if 1/2 < r then f + 1
  else if f % 2 = 0 then f else f + 1

/-- Python's `round(q, dp)`. -/
def roundTo (dp : ℕ) (q : ℚ) : ℚ :=
  (pyRound (q * 10 ^ dp) : ℚ) / 10 ^ dp

/-- After the normalization pass every dict value is a float, and
`dict.get` yields a float or `None`; `safe_num` on that domain is
"`None` ↦ `0.0`, a float ↦ itself". -/
def safe_numO : Option ℚ → ℚ
  | none => 0
  | some q => q

/-- Python truthiness of `data.get(k)` after normalization: `None` and
`0.0` are falsy, any other float truthy. -/
def truthy : Option ℚ → Bool
  | none => false
  | some q => q != 0

/-- `safe_div` from the source, on post-normalization operands: returns
`round(a / b, 4)` when `b` coerces to a non-zero number, else `None`
(`b not in (0, None, 0.0)` is exactly "`safe_num b ≠ 0`"). -/
def safe_div (a b : Option ℚ) : Option ℚ :=
  if safe_numO b = 0 then none else some (roundTo 4 (safe_numO a / safe_numO b))

/-- `normalize_scale` from the source: coerce with `safe_num`, divide by
1e6 above 1e12, by 1e3 above 1e9. -/
def normalize_scale (value : Value) : ℚ :=
  let v := safe_num value
  if v > 1e12 then v / 1e6
  else if v > 1e9 then v / 1e3
  else v

-- ---------- Ratio Functions ----------

/-- `current_ratio`: prefer current ratio; fall back to total
assets/liabilities if missing. -/
def current_ratio (current_assets current_liabilities assets liabilities : Option ℚ) :
    Option ℚ :=
  let val := safe_div current_assets current_liabilities
  if val = none ∧ truthy assets ∧ truthy liabilities then
    safe_div assets liabilities
  else val

def quick_ratio (current_assets inventory current_liabilities assets liabilities :
    Option ℚ) : Option ℚ :=
  let val := safe_div (some (safe_numO current_assets - safe_numO inventory))
    current_liabilities
  if val = none ∧ truthy assets ∧ truthy liabilities then
    safe_div (some (safe_numO assets - safe_numO inventory)) liabilities
  else val

def cash_ratio (cash current_liabilities liabilities : Option ℚ) : Option ℚ :=
  let val := safe_div cash current_liabilities
  if val = none ∧ truthy liabilities then safe_div cash liabilities else val

def debt_to_equity (liabilities equity : Option ℚ) : Option ℚ :=
  safe_div liabilities equity

def debt_ratio (liabilities assets : Option ℚ) : Option ℚ :=
  safe_div liabilities assets

def interest_coverage (ebit interest_expense : Option ℚ) : Option ℚ :=
  safe_div ebit interest_expense

def gross_profit_margin (gross_profit revenue : Option ℚ) : Option ℚ :=
  (safe_div gross_profit revenue).map (fun val => roundTo 2 (val * 100))

def operating_profit_margin (ebit revenue : Option ℚ) : Option ℚ :=
  (safe_div ebit revenue).map (fun val => roundTo 2 (val * 100))

def net_profit_margin (net_profit revenue : Option ℚ) : Option ℚ :=
  (safe_div net_profit revenue).map (fun val => roundTo 2 (val * 100))

def return_on_assets (net_profit assets : Option ℚ) : Option ℚ :=
  (safe_div net_profit assets).map (fun val => roundTo 2 (val * 100))

def return_on_equity (net_profit equity : Option ℚ) : Option ℚ :=
  (safe_div net_profit equity).map (fun val => roundTo 2 (val * 100))

def return_on_investment (net_profit investment : Option ℚ) : Option ℚ :=
  (safe_div net_profit investment).map (fun val => roundTo 2 (val * 100))

def asset_turnover (revenue assets : Option ℚ) : Option ℚ :=
  safe_div revenue assets

def inventory_turnover (cost_of_sales inventory : Option ℚ) : Option ℚ :=
  safe_div cost_of_sales inventory

def receivables_turnover (revenue receivables : Option ℚ) : Option ℚ :=
  safe_div revenue receivables

def earnings_per_share (net_profit shares_outstanding : Option ℚ) : Option ℚ :=
  safe_div net_profit shares_outstanding

def price_to_earnings (price_per_share eps : Option ℚ) : Option ℚ :=
  safe_div price_per_share eps

/-- `altman_z_score`, the simplified safe Altman Z proxy.  The source
wraps the linear combination in `try/except` because any of `A..E` could
in principle be `None`; the `match` mirrors that: the catch-all arm is
the `except` branch. -/
def altman_z_score (assets liabilities equity revenue net_profit : Option ℚ) :
    Option ℚ :=
  let a := safe_numO assets
  let l := safe_numO liabilities
  let e := safe_numO equity
  let r := safe_numO revenue
  let np := safe_numO net_profit
  if a = 0 then none
  else
    match safe_div (some (a - l)) (some a), safe_div (some e) (some a),
        safe_div (some (np * 1.15)) (some a), safe_div (some r) (some a),
        safe_div (some e) (some (if l ≠ 0 then l else 1)) with
    | some A, some B, some C, some D, some E =>
        some (roundTo 2 (1.2 * A + 1.4 * B + 3.3 * C + 0.6 * D + 1.0 * E))
    | _, _, _, _, _ => none

-- ---------- Status Evaluation ----------

/-- The five status strings the engine emits. -/
inductive Status where
  | good
  | caution
  | poor
  | insufficientData
  | unknown
deriving DecidableEq, BEq, Repr

/-- The `thresholds` table of `evaluate_status`: per indicator name a
`(good, caution)` pair. -/
def thresholds : List (String × (ℚ × ℚ)) :=
  [("current_ratio", (2.0, 1.5)),
   ("quick_ratio", (1.0, 0.8)),
   ("cash_ratio", (0.2, 0.1)),
   ("debt_to_equity_ratio", (0.5, 1.0)),
   ("debt_ratio", (0.6, 0.8)),
   ("interest_coverage_ratio", (3.0, 1.5)),
   ("gross_profit_margin", (40, 20)),
   ("operating_profit_margin", (20, 10)),
   ("net_profit_margin", (10, 5)),
   ("return_on_assets", (8, 4)),
   ("return_on_equity", (15, 8)),
   ("return_on_investment", (10, 5)),
   ("asset_turnover_ratio", (1.0, 0.5)),
   ("inventory_turnover", (5, 2)),
   ("accounts_receivable_turnover", (7, 3)),
   ("earnings_per_share", (1, 0.5)),
   ("price_to_earnings_ratio", (20, 40)),
   ("altman_z_score", (3, 1.8))]

/-- `thresholds.get(indicator, (None, None))`. -/
def thresholdFor (indicator : String) : Option (ℚ × ℚ) :=
  (thresholds.find? (fun p => p.1 = indicator)).map Prod.snd

/-- The `lower_better` membership test of `evaluate_status`. -/
def lower_better (indicator : String) : Bool :=
  indicator = "debt_to_equity_ratio" ∨ indicator = "debt_ratio" ∨
    indicator = "price_to_earnings_ratio"

/-- `evaluate_status` from the source. -/
def evaluate_status (indicator : String) (value : Option ℚ) : Status :=
  match value with
  | none => .insufficientData
  | some v =>
    match thresholdFor indicator with
    | none => .unknown
    | some (g, c) =>
      if lower_better indicator then
        if v ≤ g then .good else if v ≤ c then .caution else .poor
      else
        if v ≥ g then .good else if v ≥ c then .caution else .poor

-- ---------- Classification ----------

/-- The `rating_map` of `classify_company`, as (agency, rating) pairs. -/
def rating_map (cls : String) : List (String × String) :=
  if cls = "A" then [("Moodys", "Aaa–A2"), ("S&P", "AAA–A")]
  else if cls = "B" then [("Moodys", "Baa1–Baa3"), ("S&P", "BBB+")]
  else if cls = "C" then [("Moodys", "Ba1–Ba3"), ("S&P", "BB")]
  else if cls = "D" then [("Moodys", "B1–B3"), ("S&P", "B")]
  else if cls = "E" then [("Moodys", "Caa–C"), ("S&P", "CCC–D")]
  else []

/-- `classify_company` from the source, returning the classification
key-value pairs and the ratings dict.  Note the `None` branch uses the
keys `"risk"`/`"decision"` while the scored branch uses
`"risk_category"`/`"credit_decision"`, exactly as in the source. -/
def classify_company (overall_score : Option ℚ) :
    List (String × String) × List (String × String) :=
  match overall_score with
  | none =>
      ([("company_class", "N/A"), ("risk", "N/A"), ("decision", "N/A")], [])
  | some s =>
      let (cls, risk, decision) :=
        if s ≥ 90 then ("A", "Excellent", "Approve")
        else if s ≥ 75 then ("B", "Good", "Proceed")
        else if s ≥ 60 then ("C", "Average", "Proceed with Caution")
        else if s ≥ 40 then ("D", "Weak", "Not Recommended")
        else ("E", "Critical", "Decline")
      ([("company_class", cls), ("risk_category", risk),
        ("credit_decision", decision)], rating_map cls)

-- ---------- The input dict ----------

/-- `dict.get(k)` on an insertion-ordered association list: the first
binding for the key, if any. -/
def dget {α : Type} : List (String × α) → String → Option α
  | [], _ => none
  | (k, v) :: rest, key => if k = key then some v else dget rest key

/-- `d[k] = val` on a dict: overwrite the existing binding in place, or
append a new one. -/
def dset {α : Type} : List (String × α) → String → α → List (String × α)
  | [], key, val => [(key, val)]
  | (k, v) :: rest, key, val =>
      if k = key then (k, val) :: rest else (k, v) :: dset rest key val

-- ---------- Main Computation Engine ----------

/-- A row of the report's `indicators` list. -/
structure Indicator where
  name : String
  value : Option ℚ
  status : Status
deriving DecidableEq, Repr

/-- The dict `compute_all` returns: the indicator rows,
`overall_health_score`, and the spread-in classification fields and
ratings. -/
structure ScoringReport where
  indicators : List Indicator
  overall_health_score : Option ℚ
  classification : List (String × String)
  ratings : List (String × String)
deriving DecidableEq, Repr

/-- The `for k in list(data.keys()): data[k] = normalize_scale(data[k])`
pass: every value becomes a float. -/
def normalizeData (data : List (String × Value)) : List (String × ℚ) :=
  data.map (fun kv => (kv.1, normalize_scale kv.2))

/-- The three in-place derivation blocks of `compute_all`: total
liabilities from current + non-current when missing, equity from assets −
liabilities when missing, and default current assets/liabilities. -/
def deriveFields (data : List (String × ℚ)) : List (String × ℚ) :=
  let d1 :=
    if truthy (dget data "current_liabilities") &&
        truthy (dget data "non_current_liabilities") &&
        !truthy (dget data "liabilities") then
      dset data "liabilities"
        (safe_numO (dget data "current_liabilities") +
          safe_numO (dget data "non_current_liabilities"))
    else data
  let d2 :=
    if !truthy (dget d1 "equity") && truthy (dget d1 "assets") &&
        truthy (dget d1 "liabilities") then
      dset d1 "equity"
        (max (safe_numO (dget d1 "assets") - safe_numO (dget d1 "liabilities")) 0)
    else d1
  let d3 :=
    if !truthy (dget d2 "current_assets") && truthy (dget d2 "assets") then
      dset d2 "current_assets" (safe_numO (dget d2 "assets") * 0.3)
    else d2
  if !truthy (dget d3 "current_liabilities") && truthy (dget d3 "liabilities") then
    dset d3 "current_liabilities" (safe_numO (dget d3 "liabilities") * 0.45)
  else d3

/-- `x or y` on two `dict.get` results (Python `or` keeps the first
operand when truthy). -/
def pyOr (x y : Option ℚ) : Option ℚ := if truthy x then x else y

/-- The `ratios` dict literal of `compute_all`, in source order. -/
def computeRatios (d : List (String × ℚ)) : List (String × Option ℚ) :=
  let avg_inv := safe_numO (pyOr (dget d "avg_inventory") (dget d "inventory"))
  let avg_recv := safe_numO (pyOr (dget d "avg_receivables") (dget d "receivables"))
  [("current_ratio",
    current_ratio (dget d "current_assets") (dget d "current_liabilities")
      (dget d "assets") (dget d "liabilities")),
   ("quick_ratio",
    quick_ratio (dget d "current_assets") (dget d "inventory")
      (dget d "current_liabilities") (dget d "assets") (dget d "liabilities")),
   ("cash_ratio",
    cash_ratio (dget d "cash") (dget d "current_liabilities") (dget d "liabilities")),
   ("debt_to_equity_ratio", debt_to_equity (dget d "liabilities") (dget d "equity")),
   ("debt_ratio", debt_ratio (dget d "liabilities") (dget d "assets")),
   ("interest_coverage_ratio",
    interest_coverage (dget d "ebit") (dget d "interest_expense")),
   ("gross_profit_margin",
    gross_profit_margin (dget d "gross_profit") (dget d "revenue")),
   ("operating_profit_margin",
    operating_profit_margin (dget d "ebit") (dget d "revenue")),
   ("net_profit_margin", net_profit_margin (dget d "profit") (dget d "revenue")),
   ("return_on_assets", return_on_assets (dget d "profit") (dget d "assets")),
   ("return_on_equity", return_on_equity (dget d "profit") (dget d "equity")),
   ("return_on_investment",
    return_on_investment (dget d "profit") (dget d "investment")),
   ("asset_turnover_ratio", asset_turnover (dget d "revenue") (dget d "assets")),
   ("inventory_turnover",
    inventory_turnover (dget d "cost_of_sales") (some avg_inv)),
   ("accounts_receivable_turnover",
    receivables_turnover (dget d "revenue") (some avg_recv)),
   ("earnings_per_share",
    earnings_per_share (dget d "profit") (dget d "shares_outstanding")),
   ("price_to_earnings_ratio",
    price_to_earnings (dget d "share_price")
      (earnings_per_share (dget d "profit") (dget d "shares_outstanding"))),
   ("altman_z_score",
    altman_z_score (dget d "assets") (dget d "liabilities") (dget d "equity")
      (dget d "revenue") (dget d "profit"))]

/-- The `score_map` dict: the weight of a status, `none` when the status
is not in the map (so not counted). -/
def score_map : Status → Option ℚ
  | .good => some 1.0
  | .caution => some 0.6
  | .poor => some 0.2
  | _ => none

/-- One pass of the scoring `for` loop: evaluate the status, bump the
running total and valid count when the status is in `score_map`, and
append the indicator row to `results`. -/
def scoringStep (acc : List Indicator × ℚ × ℕ) (r : String × Option ℚ) :
    List Indicator × ℚ × ℕ :=
  let status := evaluate_status r.1 r.2
  let (results, total_score, valid_count) := acc
  let (total_score, valid_count) :=
    match score_map status with
    | some w => (total_score + w, valid_count + 1)
    | none => (total_score, valid_count)
  (results ++ [⟨r.1, r.2, status⟩], total_score, valid_count)

/-- `compute_all` from the source.  The returned pair is (final state of
the argument dict — the source mutates `data` in place — , the report).
The `try/except` around the `ratios` dict is modelled away: every
operation inside it is total (`safe_div` guards the divisions), so the
`except` branch returning an error dict is unreachable and the report is
always produced. -/
def compute_all (data : List (String × Value)) :
    List (String × ℚ) × ScoringReport :=
  let d := deriveFields (normalizeData data)
  let ratios := computeRatios d
  let (results, total_score, valid_count) := ratios.foldl scoringStep ([], 0, 0)
  let overall_score :=
    if valid_count ≠ 0 then some (roundTo 2 ((total_score / valid_count) * 100))
    else none
  let classification := classify_company overall_score
  (d, ⟨results, overall_score, classification.1, classification.2⟩)

-- ---------- Derived views used by the theorems ----------

/-- The indicator row the scoring loop appends for one `ratios` entry. -/
def indRow (r : String × Option ℚ) : Indicator :=
  ⟨r.1, r.2, evaluate_status r.1 r.2⟩

/-- An indicator is evaluable when its status is one of
`good`/`caution`/`poor` — exactly the statuses carrying a weight in
`score_map`. -/
def evaluable : Indicator → Bool
  | ⟨_, _, .good⟩ => true
  | ⟨_, _, .caution⟩ => true
  | ⟨_, _, .poor⟩ => true
  | _ => false

/-- The flat-scoring weight of a status (`good = 1.0`, `caution = 0.6`,
`poor = 0.2`; the other statuses never contribute). -/
def statusWeight : Status → ℚ
  | .good => 1.0
  | .caution => 0.6
  | .poor => 0.2
  | _ => 0

/-- The flat-scoring aggregate as the spec words it: average the status
weights over the evaluable indicators, multiply by 100, round to two
decimals; null when no indicator is evaluable. -/
def flatScoreSpec (inds : List Indicator) : Option ℚ :=
  let ev := inds.filter evaluable
  if ev.length ≠ 0 then
    some (roundTo 2 ((ev.map (fun i => statusWeight i.status)).sum / ev.length * 100))
  else none

/-- The canonical ratio names, in report order. -/
def ratioNames : List String :=
  ["current_ratio", "quick_ratio", "cash_ratio", "debt_to_equity_ratio",
   "debt_ratio", "interest_coverage_ratio", "gross_profit_margin",
   "operating_profit_margin", "net_profit_margin", "return_on_assets",
   "return_on_equity", "return_on_investment", "asset_turnover_ratio",
   "inventory_turnover", "accounts_receivable_turnover", "earnings_per_share",
   "price_to_earnings_ratio", "altman_z_score"]

/-- Rank of a company class letter, best (`A`) highest; used to state
monotonicity of the classification. -/
def classRank : Option String → ℕ
  | some c =>
      if c = "A" then 5 else if c = "B" then 4 else if c = "C" then 3
      else if c = "D" then 2 else if c = "E" then 1 else 0
  | none => 0

-- ---------- Characterizing the scoring loop ----------

lemma evaluable_eq_isSome (i : Indicator) :
    evaluable i = (score_map i.status).isSome := by
  rcases i with ⟨n, v, s⟩
  cases s <;> rfl

lemma foldl_scoringStep (rs : List (String × Option ℚ)) (res : List Indicator)
    (t : ℚ) (c : ℕ) :
    rs.foldl scoringStep (res, t, c) =
      (res ++ rs.map indRow,
       t + ((rs.map indRow).filterMap (fun i => score_map i.status)).sum,
       c + ((rs.map indRow).filter evaluable).length) := by
  induction rs generalizing res t c with
  | nil => simp
  | cons r rs ih =>
    rw [List.foldl_cons]
    cases h : score_map (evaluate_status r.1 r.2) with
    | none =>
      have hstep : scoringStep (res, t, c) r = (res ++ [indRow r], t, c) := by
        simp [scoringStep, indRow, h]
      rw [hstep, ih]
      simp [indRow, evaluable_eq_isSome, h]
    | some w =>
      have hstep : scoringStep (res, t, c) r = (res ++ [indRow r], t + w, c + 1) := by
        simp [scoringStep, indRow, h]
      rw [hstep, ih]
      simp [indRow, evaluable_eq_isSome, h]
      constructor
      · ring
      · omega

/-- `compute_all` through the loop characterization: the indicator rows
are the ratio entries with their statuses, and the overall score is the
rounded weighted average over the evaluable rows. -/
lemma compute_all_eq (data : List (String × Value)) :
    compute_all data =
      (deriveFields (normalizeData data),
       let inds := (computeRatios (deriveFields (normalizeData data))).map indRow
       let overall :=
         if (inds.filter evaluable).length ≠ 0 then
           some (roundTo 2
             (((inds.filterMap (fun i => score_map i.status)).sum /
               ((inds.filter evaluable).length : ℚ)) * 100))
         else none
       ⟨inds, overall, (classify_company overall).1, (classify_company overall).2⟩) := by
  unfold compute_all
  simp only [foldl_scoringStep]
  simp only [Nat.zero_add, List.nil_append, zero_add]

-- ---------- Dict lemmas ----------

lemma dget_dset_ne {α : Type} (d : List (String × α)) (key k : String) (v : α)
    (h : k ≠ key) : dget (dset d key v) k = dget d k := by
  induction d with
  | nil => simp [dget, dset, Ne.symm h]
  | cons p rest ih =>
    rcases p with ⟨k0, v0⟩
    by_cases h0 : k0 = key
    · subst h0
      simp [dget, dset, Ne.symm h]
    · by_cases h1 : k0 = k <;> simp [dget, dset, h, h0, h1, ih]

lemma dget_normalizeData (d : List (String × Value)) (k : String) :
    dget (normalizeData d) k = (dget d k).map normalize_scale := by
  induction d with
  | nil => rfl
  | cons p rest ih =>
    by_cases h : p.1 = k
    · simp [normalizeData, dget, h]
    · simpa [normalizeData, dget, h] using ih

/-- The only keys `deriveFields` may write. -/
lemma dget_deriveFields_ne (d : List (String × ℚ)) (k : String)
    (h1 : k ≠ "liabilities") (h2 : k ≠ "equity") (h3 : k ≠ "current_assets")
    (h4 : k ≠ "current_liabilities") :
    dget (deriveFields d) k = dget d k := by
  simp only [deriveFields]
  split_ifs <;> simp [dget_dset_ne, h1, h2, h3, h4]

-- ---------- Classification lemmas ----------

lemma classify_company_head (o : Option ℚ) :
    ∃ c rest, (classify_company o).1 = ("company_class", c) :: rest := by
  rcases o with _ | s
  · exact ⟨"N/A", _, rfl⟩
  · simp only [classify_company]
    split_ifs <;> exact ⟨_, _, rfl⟩

lemma classify_rank_mono (s1 s2 : ℚ) (h : s1 ≤ s2) :
    classRank (dget (classify_company (some s1)).1 "company_class") ≤
      classRank (dget (classify_company (some s2)).1 "company_class") := by
  simp only [classify_company]
  split_ifs <;> simp [dget, classRank] <;> linarith

lemma compute_all_classification (data : List (String × Value)) :
    (compute_all data).2.classification =
      (classify_company (compute_all data).2.overall_health_score).1 := rfl

lemma compute_all_ratings (data : List (String × Value)) :
    (compute_all data).2.ratings =
      (classify_company (compute_all data).2.overall_health_score).2 := rfl

-- ---------- Scoring lemmas ----------

lemma filterMap_score_eq (l : List Indicator) :
    (l.filterMap (fun i => score_map i.status)).sum =
      ((l.filter evaluable).map (fun i => statusWeight i.status)).sum := by
  induction l with
  | nil => rfl
  | cons i rest ih =>
    rcases i with ⟨n, v, s⟩
    cases s <;>
      · simp [List.filterMap_cons, List.filter_cons, evaluable, score_map,
          statusWeight, ih]
        exact ih

lemma not_evaluable_iff (i : Indicator) :
    evaluable i = false ↔
      i.status ≠ .good ∧ i.status ≠ .caution ∧ i.status ≠ .poor := by
  rcases i with ⟨n, v, s⟩
  cases s <;> simp [evaluable]

-- ---------- Concrete inputs used by the claims ----------

/-- Input `{assets: 100, liabilities: 60}` (no equity supplied). -/
def exBoundary : List (String × Value) :=
  [("assets", .num 100), ("liabilities", .num 60)]

/-- Input `{liabilities: 500, equity: 0}`. -/
def exZeroEquity : List (String × Value) :=
  [("liabilities", .num 500), ("equity", .num 0)]

/-- Input `{assets: 100, liabilities: 50}` (no current liabilities). -/
def exNoCurrentLiab : List (String × Value) :=
  [("assets", .num 100), ("liabilities", .num 50)]

/-- Input `{liabilities: 5e8, assets: 2e9}` (one value above 1e9). -/
def exBillions : List (String × Value) :=
  [("liabilities", .num 500000000), ("assets", .num 2000000000)]

/-- Input `{revenue: 1000, profit: 100}`. -/
def exMargins : List (String × Value) :=
  [("revenue", .num 1000), ("profit", .num 100)]

-- ---------- More shared lemmas ----------

lemma compute_all_fst (data : List (String × Value)) :
    (compute_all data).1 = deriveFields (normalizeData data) := by
  rw [compute_all_eq]

lemma overall_none_iff (data : List (String × Value)) :
    (compute_all data).2.overall_health_score = none ↔
      (compute_all data).2.indicators.filter evaluable = [] := by
  simp only [compute_all_eq]
  by_cases hl :
    (List.filter evaluable
      (List.map indRow (computeRatios (deriveFields (normalizeData data))))).length = 0
  · simp [hl, List.length_eq_zero.mp hl]
  · simp only [ne_eq, hl, not_false_eq_true, if_true]
    constructor
    · intro h; exact absurd h (by simp)
    · intro hnil; exact absurd (by rw [hnil]; rfl) hl

lemma filter_evaluable_nil_iff (l : List Indicator) :
    l.filter evaluable = [] ↔
      ∀ i ∈ l, i.status ≠ .good ∧ i.status ≠ .caution ∧ i.status ≠ .poor := by
  rw [List.filter_eq_nil_iff]
  constructor
  · intro h i hi
    exact (not_evaluable_iff i).mp (by simpa using h i hi)
  · intro h i hi
    simp [(not_evaluable_iff i).mpr (h i hi)]

-- ---------- The claims ----------

/-- Claim C1: for every input map (empty maps and garbage values
included) `compute_all` returns a well-formed ScoringReport — the 18
indicator rows in canonical order, an `overall_health_score`, and the
classification fields and ratings derived from the score — and never
fails: every operation in the `ratios` block is total because `safe_div`
guards all divisions, so the `except` branch returning an error dict is
unreachable. -/
theorem C1_total_wellformed (data : List (String × Value)) :
    ((compute_all data).2.indicators.map (fun i => i.name) = ratioNames) ∧
    ((compute_all data).2.classification =
      (classify_company (compute_all data).2.overall_health_score).1) ∧
    ((compute_all data).2.ratings =
      (classify_company (compute_all data).2.overall_health_score).2) ∧
    ((dget (compute_all data).2.classification "company_class").isSome = true) := by
  refine ⟨?_, compute_all_classification data, compute_all_ratings data, ?_⟩
  · simp only [compute_all_eq]
    simp [computeRatios, indRow, ratioNames]
  · rw [compute_all_classification]
    obtain ⟨c, rest, hc⟩ :=
      classify_company_head (compute_all data).2.overall_health_score
    rw [hc]
    simp [dget]

/-- Claim C2: division by (anything coercing to) zero yields the
indeterminate marker `None` for every numerator; a zero numerator over a
non-zero denominator yields exactly `0.0` — so a zero ratio and an
uncomputable ratio are distinguishable. -/
theorem C2_zero_division (x y : Option ℚ) (hy : safe_numO y ≠ 0) :
    safe_div x (some 0) = none ∧ safe_div (some 0) y = some 0 := by
  constructor
  · simp [safe_div, safe_numO]
  · have h0 : safe_numO (some 0) = 0 := rfl
    simp only [safe_div, if_neg hy, h0, zero_div]
    norm_num [roundTo, pyRound]

theorem C2_zero_division_witness :
    safe_div (some 3) (some 0) = none ∧ safe_div (some 0) (some 5) = some 0 :=
  C2_zero_division (some 3) (some 5) (by norm_num [safe_numO])

/-- Claim C3: the overall score is null iff no indicator was evaluable
(none got status good/caution/poor); when it is null every
classification field is `"N/A"` and the ratings are empty; and on the
empty map the score is null, the class `"N/A"`, and all 18 indicators
carry value `None` with the insufficient-data status. -/
theorem C3_null_iff_unevaluable (data : List (String × Value)) :
    ((compute_all data).2.overall_health_score = none ↔
      ∀ i ∈ (compute_all data).2.indicators,
        i.status ≠ .good ∧ i.status ≠ .caution ∧ i.status ≠ .poor) ∧
    ((compute_all data).2.overall_health_score = none →
      (∀ kv ∈ (compute_all data).2.classification, kv.2 = "N/A") ∧
        (compute_all data).2.ratings = []) ∧
    ((compute_all []).2.overall_health_score = none ∧
      dget (compute_all []).2.classification "company_class" = some "N/A" ∧
      ∀ i ∈ (compute_all []).2.indicators,
        i.value = none ∧ i.status = .insufficientData) := by
  refine ⟨(overall_none_iff data).trans (filter_evaluable_nil_iff _), ?_, by decide⟩
  intro h
  rw [compute_all_classification, compute_all_ratings, h]
  exact ⟨by decide, rfl⟩

theorem C3_null_iff_unevaluable_witness :
    (∀ kv ∈ (compute_all []).2.classification, kv.2 = "N/A") ∧
      (compute_all []).2.ratings = [] :=
  (C3_null_iff_unevaluable []).2.1 (C3_null_iff_unevaluable []).2.2.1

/-- Claim C4: whenever at least one indicator is evaluable, the overall
score equals the flat-scoring aggregate: status weights good = 1.0,
caution = 0.6, poor = 0.2, insufficient-data/unknown excluded from both
numerator and denominator, averaged over the evaluable indicators and
multiplied by 100 (rounded to 2 decimals). -/
theorem C4_flat_scoring (data : List (String × Value))
    (h : (compute_all data).2.indicators.filter evaluable ≠ []) :
    (compute_all data).2.overall_health_score =
      flatScoreSpec (compute_all data).2.indicators := by
  have hlen : ((compute_all data).2.indicators.filter evaluable).length ≠ 0 := by
    simpa [List.length_eq_zero] using h
  simp only [compute_all_eq] at hlen ⊢
  simp only [flatScoreSpec]
  rw [if_pos hlen, if_pos hlen, filterMap_score_eq]

set_option maxHeartbeats 2000000 in
unseal Rat.add Rat.mul Rat.sub Rat.inv Rat.ofScientific in
theorem C4_flat_scoring_witness :
    (compute_all exBoundary).2.indicators.filter evaluable ≠ [] ∧
      (compute_all exBoundary).2.overall_health_score =
        flatScoreSpec (compute_all exBoundary).2.indicators :=
  ⟨by decide, C4_flat_scoring exBoundary (by decide)⟩

/-- Claim C5: for every non-null overall score `s`, `classify_company`
follows the ordered threshold table with inclusive lower bounds,
top-down: `s ≥ 90 → A/Excellent/Approve`, `75 ≤ s < 90 → B/Good/Proceed`,
`60 ≤ s < 75 → C/Average/Proceed with Caution`,
`40 ≤ s < 60 → D/Weak/Not Recommended`, `s < 40 → E/Critical/Decline`,
each with its fixed rating-equivalent pair. -/
theorem C5_classification_bands (s : ℚ) :
    (s ≥ 90 → classify_company (some s) =
      ([("company_class", "A"), ("risk_category", "Excellent"),
        ("credit_decision", "Approve")],
       [("Moodys", "Aaa–A2"), ("S&P", "AAA–A")])) ∧
    (75 ≤ s ∧ s < 90 → classify_company (some s) =
      ([("company_class", "B"), ("risk_category", "Good"),
        ("credit_decision", "Proceed")],
       [("Moodys", "Baa1–Baa3"), ("S&P", "BBB+")])) ∧
    (60 ≤ s ∧ s < 75 → classify_company (some s) =
      ([("company_class", "C"), ("risk_category", "Average"),
        ("credit_decision", "Proceed with Caution")],
       [("Moodys", "Ba1–Ba3"), ("S&P", "BB")])) ∧
    (40 ≤ s ∧ s < 60 → classify_company (some s) =
      ([("company_class", "D"), ("risk_category", "Weak"),
        ("credit_decision", "Not Recommended")],
       [("Moodys", "B1–B3"), ("S&P", "B")])) ∧
    (s < 40 → classify_company (some s) =
      ([("company_class", "E"), ("risk_category", "Critical"),
        ("credit_decision", "Decline")],
       [("Moodys", "Caa–C"), ("S&P", "CCC–D")])) := by
  refine ⟨fun h => ?_, fun h => ?_, fun h => ?_, fun h => ?_, fun h => ?_⟩ <;>
    · try obtain ⟨h1, h2⟩ := h
      simp only [classify_company]
      split_ifs <;> first | rfl | (exfalso; linarith)

theorem C5_classification_bands_witness :
    classify_company (some 95) =
      ([("company_class", "A"), ("risk_category", "Excellent"),
        ("credit_decision", "Approve")],
       [("Moodys", "Aaa–A2"), ("S&P", "AAA–A")]) ∧
    classify_company (some 80) =
      ([("company_class", "B"), ("risk_category", "Good"),
        ("credit_decision", "Proceed")],
       [("Moodys", "Baa1–Baa3"), ("S&P", "BBB+")]) ∧
    classify_company (some 65) =
      ([("company_class", "C"), ("risk_category", "Average"),
        ("credit_decision", "Proceed with Caution")],
       [("Moodys", "Ba1–Ba3"), ("S&P", "BB")]) ∧
    classify_company (some 45) =
      ([("company_class", "D"), ("risk_category", "Weak"),
        ("credit_decision", "Not Recommended")],
       [("Moodys", "B1–B3"), ("S&P", "B")]) ∧
    classify_company (some 20) =
      ([("company_class", "E"), ("risk_category", "Critical"),
        ("credit_decision", "Decline")],
       [("Moodys", "Caa–C"), ("S&P", "CCC–D")]) :=
  ⟨(C5_classification_bands 95).1 (by norm_num),
   (C5_classification_bands 80).2.1 ⟨by norm_num, by norm_num⟩,
   (C5_classification_bands 65).2.2.1 ⟨by norm_num, by norm_num⟩,
   (C5_classification_bands 45).2.2.2.1 ⟨by norm_num, by norm_num⟩,
   (C5_classification_bands 20).2.2.2.2 (by norm_num)⟩

set_option maxHeartbeats 2000000 in
unseal Rat.add Rat.mul Rat.sub Rat.inv Rat.ofScientific in
/-- Claim C6, counterexample: in `{assets: 100, liabilities: 50}` the
`current_ratio` denominator field `current_liabilities` is absent from
the input map, yet the reported value is `1.3333` (computed from the
derived default `current_liabilities = liabilities * 0.45`), not the
indeterminate marker — refuting the claim that an absent denominator
field always yields a `None` value. -/
theorem C6_counterexample :
    dget exNoCurrentLiab "current_liabilities" = none ∧
    (compute_all exNoCurrentLiab).2.indicators.filter
        (fun i => i.name == "current_ratio") =
      [⟨"current_ratio", some (13333/10000), .poor⟩] ∧
    (some ((13333 : ℚ)/10000)).isSome = true := by
  refine ⟨rfl, by decide, rfl⟩

set_option maxHeartbeats 2000000 in
unseal Rat.add Rat.mul Rat.sub Rat.inv Rat.ofScientific in
/-- Claim C6 (amended): whenever the denominator actually passed to the
division — after `compute_all` has derived missing
liabilities/equity/current-asset/current-liability defaults and applied
the per-ratio fallbacks — coerces to zero, `safe_div` returns the
indeterminate marker `None`, and a `None` value always carries the
insufficient-data status; in particular `{liabilities: 500, equity: 0}`
yields an indeterminate `debt_to_equity_ratio`, not infinity and not an
error. -/
theorem C6_amended_zero_denominator (a b : Option ℚ) (name : String)
    (hb : safe_numO b = 0) :
    safe_div a b = none ∧
    evaluate_status name none = .insufficientData ∧
    (compute_all exZeroEquity).2.indicators.filter
        (fun i => i.name == "debt_to_equity_ratio") =
      [⟨"debt_to_equity_ratio", none, .insufficientData⟩] := by
  refine ⟨by simp [safe_div, hb], rfl, by decide⟩

theorem C6_amended_zero_denominator_witness :
    safe_div (some 500) (some 0) = none ∧
    evaluate_status "debt_to_equity_ratio" none = .insufficientData ∧
    (compute_all exZeroEquity).2.indicators.filter
        (fun i => i.name == "debt_to_equity_ratio") =
      [⟨"debt_to_equity_ratio", none, .insufficientData⟩] :=
  C6_amended_zero_denominator (some 500) (some 0) "debt_to_equity_ratio" rfl

set_option maxHeartbeats 2000000 in
unseal Rat.add Rat.mul Rat.sub Rat.inv Rat.ofScientific in
/-- Claim C7, counterexample: on `{assets: 100, liabilities: 60}` the
`debt_ratio` indicator has value `0.6` but status `good`, not `caution`
as the claim asserts — the threshold pair for `debt_ratio` is
`(good = 0.6, caution = 0.8)` and the lower-is-better comparison
`value ≤ good` is inclusive. -/
theorem C7_counterexample :
    (compute_all exBoundary).2.indicators.filter (fun i => i.name == "debt_ratio") =
      [⟨"debt_ratio", some (3/5), .good⟩] ∧
    (Status.good == Status.caution) = false := by
  exact ⟨by decide, rfl⟩

set_option maxHeartbeats 2000000 in
unseal Rat.add Rat.mul Rat.sub Rat.inv Rat.ofScientific in
/-- Claim C7 (amended): on `{assets: 100, liabilities: 60}` the engine
derives `equity = 40` and `debt_ratio = 0.6`, and a value exactly equal
to the good threshold resolves to status `good` (the caution band covers
values strictly above `0.6` up to `0.8`). -/
theorem C7_amended_boundary :
    dget (compute_all exBoundary).1 "equity" = some 40 ∧
    (compute_all exBoundary).2.indicators.filter (fun i => i.name == "debt_ratio") =
      [⟨"debt_ratio", some (3/5), .good⟩] ∧
    evaluate_status "debt_ratio" (some (3/5)) = .good ∧
    evaluate_status "debt_ratio" (some (7/10)) = .caution := by
  exact ⟨by decide, by decide, by decide, by decide⟩

/-- Claim C8: classification is monotone in the overall score — for any
two input maps whose scores satisfy `s1 < s2`, the class of the second
report is never strictly worse under the ordering `A > B > C > D > E`. -/
theorem C8_classification_monotone (d1 d2 : List (String × Value)) (s1 s2 : ℚ)
    (h1 : (compute_all d1).2.overall_health_score = some s1)
    (h2 : (compute_all d2).2.overall_health_score = some s2)
    (h12 : s1 < s2) :
    classRank (dget (compute_all d1).2.classification "company_class") ≤
      classRank (dget (compute_all d2).2.classification "company_class") := by
  rw [compute_all_classification, h1, compute_all_classification, h2]
  exact classify_rank_mono s1 s2 (le_of_lt h12)

set_option maxHeartbeats 2000000 in
unseal Rat.add Rat.mul Rat.sub Rat.inv Rat.ofScientific in
theorem C8_classification_monotone_witness :
    (compute_all exBoundary).2.overall_health_score = some (1889/50) ∧
    (compute_all exMargins).2.overall_health_score = some (4667/100) ∧
    ((1889 : ℚ)/50 < 4667/100) ∧
    classRank (dget (compute_all exBoundary).2.classification "company_class") ≤
      classRank (dget (compute_all exMargins).2.classification "company_class") :=
  ⟨by decide, by decide, by norm_num,
   C8_classification_monotone exBoundary exMargins (1889/50) (4667/100)
     (by decide) (by decide) (by norm_num)⟩

set_option maxHeartbeats 2000000 in
unseal Rat.add Rat.mul Rat.sub Rat.inv Rat.ofScientific in
/-- Claim C9, counterexample: `compute_all` does not leave the caller's
map unchanged — on `{assets: 100, liabilities: 60}` the call adds the
derived key `equity` (value 40) to the map it was given. -/
theorem C9_counterexample :
    dget exBoundary "equity" = none ∧
    dget (compute_all exBoundary).1 "equity" = some 40 := by
  exact ⟨rfl, by decide⟩

set_option maxHeartbeats 2000000 in
unseal Rat.add Rat.mul Rat.sub Rat.inv Rat.ofScientific in
/-- Claim C9 (amended): `compute_all` mutates its input map in place: it
replaces every value by its `normalize_scale` image and may add or
overwrite the four derived keys `liabilities`, `equity`,
`current_assets`, `current_liabilities`; every other key is only
rescaled — never added, removed, or otherwise changed. -/
theorem C9_amended_frame (data : List (String × Value)) (k : String)
    (h1 : k ≠ "liabilities") (h2 : k ≠ "equity") (h3 : k ≠ "current_assets")
    (h4 : k ≠ "current_liabilities") :
    dget (compute_all data).1 k = (dget data k).map normalize_scale := by
  rw [compute_all_fst, dget_deriveFields_ne _ _ h1 h2 h3 h4, dget_normalizeData]

set_option maxHeartbeats 2000000 in
unseal Rat.add Rat.mul Rat.sub Rat.inv Rat.ofScientific in
theorem C9_amended_frame_witness :
    dget (compute_all exBoundary).1 "assets" =
      (dget exBoundary "assets").map normalize_scale ∧
    dget (compute_all exBoundary).1 "assets" = some 100 :=
  ⟨C9_amended_frame exBoundary "assets" (by decide) (by decide) (by decide)
     (by decide),
   by decide⟩

set_option maxHeartbeats 2000000 in
unseal Rat.add Rat.mul Rat.sub Rat.inv Rat.ofScientific in
/-- Claim C10: before any ratio is computed, `compute_all` passes every
input value through `normalize_scale`, which divides values above 1e12
by 1e6 and values above 1e9 (but at most 1e12) by 1e3, leaving values at
or below 1e9 unscaled; the ratios are then computed from the rescaled
map — concretely, `{liabilities: 5e8, assets: 2e9}` has its assets
rescaled to 2e6 (liabilities untouched) and reports
`debt_ratio = 5e8 / 2e6 = 250`. -/
theorem C10_scale_normalization (v : Value) (data : List (String × Value))
    (k : String) :
    (safe_num v > 1e12 → normalize_scale v = safe_num v / 1e6) ∧
    (1e9 < safe_num v ∧ safe_num v ≤ 1e12 →
      normalize_scale v = safe_num v / 1e3) ∧
    (safe_num v ≤ 1e9 → normalize_scale v = safe_num v) ∧
    dget (normalizeData data) k = (dget data k).map normalize_scale ∧
    (compute_all data).1 = deriveFields (normalizeData data) ∧
    (dget (compute_all exBillions).1 "assets" = some 2000000 ∧
      dget (compute_all exBillions).1 "liabilities" = some 500000000 ∧
      (compute_all exBillions).2.indicators.filter
          (fun i => i.name == "debt_ratio") =
        [⟨"debt_ratio", some 250, .poor⟩]) := by
  refine ⟨?_, ?_, ?_, dget_normalizeData data k, compute_all_fst data,
    by decide, by decide, by decide⟩
  · intro h
    simp only [normalize_scale]
    rw [if_pos h]
  · rintro ⟨hlo, hhi⟩
    simp only [normalize_scale]
    rw [if_neg (not_lt.mpr hhi), if_pos hlo]
  · intro h
    simp only [normalize_scale]
    rw [if_neg (not_lt.mpr (le_trans h (by norm_num))), if_neg (not_lt.mpr h)]

set_option maxHeartbeats 400000 in
theorem C10_scale_normalization_witness :
    normalize_scale (.num 2000000000000) = 2000000000000 / 1e6 ∧
    normalize_scale (.num 2000000000) = 2000000000 / 1e3 ∧
    normalize_scale (.num 5) = 5 :=
  ⟨(C10_scale_normalization (.num 2000000000000) [] "k").1 (by norm_num [safe_num]),
   (C10_scale_normalization (.num 2000000000) [] "k").2.1
     ⟨by norm_num [safe_num], by norm_num [safe_num]⟩,
   (C10_scale_normalization (.num 5) [] "k").2.2.1 (by norm_num [safe_num])⟩
